import Mathlib

/-!
Verification of the GeneralisedRelayer core logic: a shallow embedding of the
redis-backed bounty store (`src/store/store.lib.ts`), the submitter's submit
queue (`src/submitter/queues/submit-queue.ts`) and the two collector workers
(`src/collector/layerZero/layerZero-message-sniffer-worker.ts`, helpers in
`mock.utils`).  The store is modelled per message identifier: the value held
under the key `relayer:bounty:<messageIdentifier>` is an `Option BountyJson`,
and each `register…` method becomes a function on that option.
-/

namespace Relayer

/-- Modelled from the spec: the enum source file (`bounty.enum.ts`) is not among
the provided sources.  The spec fixes the ordering
`BountyPlaced < MessageDelivered < BountyClaimed`; `Math.max` over these values
in `store.lib.ts` requires concrete numerals, realised as 0 < 1 < 2. -/
def BountyStatus.BountyPlaced : Nat := 0

/-- Modelled from the spec: second stage of the bounty lifecycle. -/
def BountyStatus.MessageDelivered : Nat := 1

/-- Modelled from the spec: terminal stage of the bounty lifecycle. -/
def BountyStatus.BountyClaimed : Nat := 2

/-- The JSON bounty record stored in redis, after `JSON.parse`.  Fields are
`Option` exactly when the corresponding key can be absent from the stored JSON
(`JSON.stringify` drops `undefined`-valued keys).  `Math.max` applied to a
missing operand yields `NaN`, which `JSON.stringify` turns into `null`; both
the missing key and that degenerate `null` are modelled as `none`.  Gas prices
and `targetDelta` are stored as decimal strings of unsigned big integers and
are modelled by their numeric value (`Nat`).  Mirrors `BountyJson` of
`src/store/types/store.types.ts` together with the record literals actually
written by `store.lib.ts` (which uses the key `address`). -/
structure BountyJson where
  messageIdentifier : String
  fromChainId : Option String
  toChainId : Option String
  maxGasDelivery : Option Nat
  maxGasAck : Option Nat
  refundGasTo : Option String
  priceOfDeliveryGas : Option Nat
  priceOfAckGas : Option Nat
  targetDelta : Option Nat
  status : Option Nat
  address : Option String
  finalised : Option Bool
  submitTransactionHash : Option String
  execTransactionHash : Option String
  ackTransactionHash : Option String
  deliveryGasCost : Option Nat
deriving DecidableEq, Repr

/-- A `BountyJson` with the given identifier and every optional key absent. -/
def emptyRecord (mid : String) : BountyJson :=
  { messageIdentifier := mid
    fromChainId := none
    toChainId := none
    maxGasDelivery := none
    maxGasAck := none
    refundGasTo := none
    priceOfDeliveryGas := none
    priceOfAckGas := none
    targetDelta := none
    status := none
    address := none
    finalised := none
    submitTransactionHash := none
    execTransactionHash := none
    ackTransactionHash := none
    deliveryGasCost := none }

/-- Argument of `Store.registerBountyPlaced`: the event together with its
`incentive` sub-object, flattened. -/
structure BountyPlacedEvent where
  messageIdentifier : String
  maxGasDelivery : Nat
  maxGasAck : Nat
  refundGasTo : String
  priceOfDeliveryGas : Nat
  priceOfAckGas : Nat
  targetDelta : Nat
  incentivesAddress : String
  transactionHash : String
deriving DecidableEq, Repr

/-- Argument of `Store.registerMessageDelivered`. -/
structure MessageDeliveredEvent where
  messageIdentifier : String
  incentivesAddress : String
  transactionHash : String
deriving DecidableEq, Repr

/-- Argument of `Store.registerBountyClaimed`. -/
structure BountyClaimedEvent where
  messageIdentifier : String
  incentivesAddress : String
  transactionHash : String
deriving DecidableEq, Repr

/-- Argument of `Store.registerBountyIncreased`. -/
structure BountyIncreasedEvent where
  messageIdentifier : String
  newDeliveryGasPrice : Nat
  newAckGasPrice : Nat
  incentivesAddress : String
  transactionHash : String
deriving DecidableEq, Repr

/-- The bounty object freshly constructed at the top of
`Store.registerBountyPlaced` (store.lib.ts lines 190-203). -/
def freshBounty (chainId : String) (e : BountyPlacedEvent) : BountyJson :=
  { messageIdentifier := e.messageIdentifier
    fromChainId := some chainId
    toChainId := none
    maxGasDelivery := some e.maxGasDelivery
    maxGasAck := some e.maxGasAck
    refundGasTo := some e.refundGasTo
    priceOfDeliveryGas := some e.priceOfDeliveryGas
    priceOfAckGas := some e.priceOfAckGas
    targetDelta := some e.targetDelta
    status := some BountyStatus.BountyPlaced
    address := some e.incentivesAddress
    finalised := some false
    submitTransactionHash := some e.transactionHash
    execTransactionHash := none
    ackTransactionHash := none
    deliveryGasCost := none }

/-- One key of the JavaScript object-spread merge
`\x7b ...bounty, ...JSON.parse(existingValue) \x7d`: a key present in the stored
JSON wins over the freshly constructed value, an absent key falls back to it. -/
def jsonMergeField {α : Type} (stored fresh : Option α) : Option α :=
  match stored with
  | some v => some v
  | none => fresh

/-- The object-spread merge of `Store.registerBountyPlaced` (store.lib.ts
lines 222-225), applied key by key. -/
def mergeExistingWins (fresh stored : BountyJson) : BountyJson :=
  { messageIdentifier := stored.messageIdentifier
    fromChainId := jsonMergeField stored.fromChainId fresh.fromChainId
    toChainId := jsonMergeField stored.toChainId fresh.toChainId
    maxGasDelivery := jsonMergeField stored.maxGasDelivery fresh.maxGasDelivery
    maxGasAck := jsonMergeField stored.maxGasAck fresh.maxGasAck
    refundGasTo := jsonMergeField stored.refundGasTo fresh.refundGasTo
    priceOfDeliveryGas := jsonMergeField stored.priceOfDeliveryGas fresh.priceOfDeliveryGas
    priceOfAckGas := jsonMergeField stored.priceOfAckGas fresh.priceOfAckGas
    targetDelta := jsonMergeField stored.targetDelta fresh.targetDelta
    status := jsonMergeField stored.status fresh.status
    address := jsonMergeField stored.address fresh.address
    finalised := jsonMergeField stored.finalised fresh.finalised
    submitTransactionHash := jsonMergeField stored.submitTransactionHash fresh.submitTransactionHash
    execTransactionHash := jsonMergeField stored.execTransactionHash fresh.execTransactionHash
    ackTransactionHash := jsonMergeField stored.ackTransactionHash fresh.ackTransactionHash
    deliveryGasCost := jsonMergeField stored.deliveryGasCost fresh.deliveryGasCost }

/-- `Store.registerBountyPlaced` (store.lib.ts lines 177-228) acting on the
record stored under the bounty's key. -/
def registerBountyPlaced (chainId : String) (e : BountyPlacedEvent) :
    Option BountyJson → Option BountyJson
  | none => some (freshBounty chainId e)
  | some existing => some (mergeExistingWins (freshBounty chainId e) existing)

/-- `Math.max (status, v)` on a possibly missing stored status: with a number
it is the maximum, with a missing operand it yields `NaN` (stored as `null`),
modelled as `none`. -/
def jsMaxStatus (status : Option Nat) (v : Nat) : Option Nat :=
  status.map (fun s => max s v)

/-- `Store.registerMessageDelivered` (store.lib.ts lines 235-273). -/
def registerMessageDelivered (chainId : String) (e : MessageDeliveredEvent) :
    Option BountyJson → Option BountyJson
  | none =>
      some { emptyRecord e.messageIdentifier with
              status := some BountyStatus.MessageDelivered
              execTransactionHash := some e.transactionHash
              toChainId := some chainId }
  | some b =>
      some { b with
              status := jsMaxStatus b.status BountyStatus.MessageDelivered
              execTransactionHash := some e.transactionHash
              toChainId := some chainId }

/-- `Math.max (BountyClaimed, status)` — the operand order used by
`registerBountyClaimed`. -/
def jsMaxStatusRev (v : Nat) (status : Option Nat) : Option Nat :=
  status.map (fun s => max v s)

/-- `Store.registerBountyClaimed` (store.lib.ts lines 280-319). -/
def registerBountyClaimed (chainId : String) (e : BountyClaimedEvent) :
    Option BountyJson → Option BountyJson
  | none =>
      some { emptyRecord e.messageIdentifier with
              status := some BountyStatus.BountyClaimed
              ackTransactionHash := some e.transactionHash
              fromChainId := some chainId }
  | some b =>
      some { b with
              status := jsMaxStatusRev BountyStatus.BountyClaimed b.status
              ackTransactionHash := some e.transactionHash
              fromChainId := some chainId }

/-- `Store.registerBountyIncreased` (store.lib.ts lines 325-387).  The second
component records whether the method wrote the key (`this.set` was reached). -/
def registerBountyIncreased (e : BountyIncreasedEvent) :
    Option BountyJson → Option BountyJson × Bool
  | none =>
      (some { emptyRecord e.messageIdentifier with
               priceOfDeliveryGas := some e.newDeliveryGasPrice
               priceOfAckGas := some e.newAckGasPrice }, true)
  | some b =>
      let currentDeliveryGasPrice := b.priceOfDeliveryGas.getD 0
      let currentAckGasPrice := b.priceOfAckGas.getD 0
      let hasDeliveryGasPriceIncreased : Bool :=
        decide (currentDeliveryGasPrice < e.newDeliveryGasPrice)
      let hasAckGasPriceIncreased : Bool :=
        decide (currentAckGasPrice < e.newAckGasPrice)
      let hasChanged := hasDeliveryGasPriceIncreased || hasAckGasPriceIncreased
      if hasChanged then
        (some { b with
                 priceOfDeliveryGas :=
                   some (if hasDeliveryGasPriceIncreased then e.newDeliveryGasPrice
                         else currentDeliveryGasPrice)
                 priceOfAckGas :=
                   some (if hasAckGasPriceIncreased then e.newAckGasPrice
                         else currentAckGasPrice) }, true)
      else (some b, false)

/-- `Store.getBounty` (store.lib.ts lines 146-170): the stored record is
returned only when `priceOfDeliveryGas`, `priceOfAckGas` and `targetDelta` are
all present (a present decimal string produced by `BigNumber.toString` is never
empty, so JavaScript truthiness of such a field is exactly presence);
otherwise the method returns `null`. -/
def getBounty : Option BountyJson → Option BountyJson
  | none => none
  | some b =>
      if b.priceOfDeliveryGas.isSome && b.priceOfAckGas.isSome && b.targetDelta.isSome
      then some b
      else none

/-! ### Sequences of store operations -/

/-- The status a lifecycle event reports: `BountyPlaced` events carry status 0,
`MessageDelivered` 1, `BountyClaimed` 2 (the value written when no record
exists yet). -/
inductive LifecycleOp where
  | placed (chainId : String) (e : BountyPlacedEvent)
  | delivered (chainId : String) (e : MessageDeliveredEvent)
  | claimed (chainId : String) (e : BountyClaimedEvent)
deriving DecidableEq, Repr

/-- Dispatch one lifecycle store call, as the worker of the given chain
performs it. -/
def applyLifecycleOp (s : Option BountyJson) : LifecycleOp → Option BountyJson
  | .placed chainId e => registerBountyPlaced chainId e s
  | .delivered chainId e => registerMessageDelivered chainId e s
  | .claimed chainId e => registerBountyClaimed chainId e s

/-- The status level associated with each kind of lifecycle event. -/
def opStatus : LifecycleOp → Nat
  | .placed _ _ => BountyStatus.BountyPlaced
  | .delivered _ _ => BountyStatus.MessageDelivered
  | .claimed _ _ => BountyStatus.BountyClaimed

/-- Run a sequence of lifecycle store calls left to right. -/
def runLifecycle (ops : List LifecycleOp) (s : Option BountyJson) : Option BountyJson :=
  ops.foldl applyLifecycleOp s

/-- Maximum status level over a sequence of lifecycle events. -/
def maxOpStatus (ops : List LifecycleOp) : Nat :=
  (ops.map opStatus).foldl max 0

/-- The status of the record currently stored under the bounty key. -/
def getStatus (s : Option BountyJson) : Option Nat :=
  s.bind (fun b => b.status)

/-- Order on observed statuses: no record, or a record without a numeric
status, is below everything; numeric statuses compare as naturals. -/
def statusLe : Option Nat → Option Nat → Prop
  | none, _ => True
  | some _, none => False
  | some a, some b => a ≤ b

/-- All four bounty store operations (`registerBountyPlaced`,
`registerMessageDelivered`, `registerBountyClaimed`, `registerBountyIncreased`). -/
inductive StoreOp where
  | placed (chainId : String) (e : BountyPlacedEvent)
  | delivered (chainId : String) (e : MessageDeliveredEvent)
  | claimed (chainId : String) (e : BountyClaimedEvent)
  | increased (e : BountyIncreasedEvent)
deriving DecidableEq, Repr

/-- Dispatch one store call of any of the four kinds. -/
def applyStoreOp (s : Option BountyJson) : StoreOp → Option BountyJson
  | .placed chainId e => registerBountyPlaced chainId e s
  | .delivered chainId e => registerMessageDelivered chainId e s
  | .claimed chainId e => registerBountyClaimed chainId e s
  | .increased e => (registerBountyIncreased e s).1

/-- Every optional field populated in `b` is still populated in `b2`
(no update clears a field it lacks). -/
def preservesPopulated (b b2 : BountyJson) : Prop :=
  (b.fromChainId.isSome → b2.fromChainId.isSome) ∧
  (b.toChainId.isSome → b2.toChainId.isSome) ∧
  (b.maxGasDelivery.isSome → b2.maxGasDelivery.isSome) ∧
  (b.maxGasAck.isSome → b2.maxGasAck.isSome) ∧
  (b.refundGasTo.isSome → b2.refundGasTo.isSome) ∧
  (b.priceOfDeliveryGas.isSome → b2.priceOfDeliveryGas.isSome) ∧
  (b.priceOfAckGas.isSome → b2.priceOfAckGas.isSome) ∧
  (b.targetDelta.isSome → b2.targetDelta.isSome) ∧
  (b.status.isSome → b2.status.isSome) ∧
  (b.address.isSome → b2.address.isSome) ∧
  (b.finalised.isSome → b2.finalised.isSome) ∧
  (b.submitTransactionHash.isSome → b2.submitTransactionHash.isSome) ∧
  (b.execTransactionHash.isSome → b2.execTransactionHash.isSome) ∧
  (b.ackTransactionHash.isSome → b2.ackTransactionHash.isSome) ∧
  (b.deliveryGasCost.isSome → b2.deliveryGasCost.isSome)

/-- State step for a sequence of `registerBountyIncreased` calls. -/
def applyIncrease (s : Option BountyJson) (e : BountyIncreasedEvent) : Option BountyJson :=
  (registerBountyIncreased e s).1

/-- Maximum of an initial price and the prices carried by a list of
`BountyIncreased` events, folded in arrival order. -/
def maxPrice (init : Nat) (price : BountyIncreasedEvent → Nat)
    (es : List BountyIncreasedEvent) : Nat :=
  es.foldl (fun acc e => max acc (price e)) init

/-! ### Submit queue (`src/submitter/queues/submit-queue.ts`) -/

/-- `SubmitOrder` (submitter.types, the fields the submit queue reads). -/
structure SubmitOrder where
  messageIdentifier : String
  isDelivery : Bool
  priority : Bool
  requeueCount : Option Nat
deriving DecidableEq, Repr

/-- The transaction receipt data used on completion. -/
structure TxReceipt where
  gasUsed : Nat
deriving DecidableEq, Repr

/-- `SubmitOrderResult`: the order together with its receipt. -/
structure SubmitOrderResult where
  order : SubmitOrder
  txReceipt : TxReceipt
deriving DecidableEq, Repr

/-- Whether `SubmitQueue.handleOrder` (lines 29-76) runs the static-call
simulation `this.provider.call(order.transactionRequest)` before submitting:
`retryCount > 0 or (order.requeueCount ?? 0) > 0`. -/
def handleOrderSimulates (order : SubmitOrder) (retryCount : Nat) : Bool :=
  decide (retryCount > 0) || decide (order.requeueCount.getD 0 > 0)

/-- `SubmitQueue.handleFailedOrder` (lines 78-100): returns whether to retry
the order; the error is represented by its optional `code` field. -/
def handleFailedOrder (errorCode : Option String) : Bool :=
  if errorCode = some "CALL_EXCEPTION" then false
  else true

/-- A `Store.registerDeliveryCost` invocation as emitted by the submit queue. -/
structure DeliveryCostCall where
  messageIdentifier : String
  deliveryGasCost : Nat
deriving DecidableEq, Repr

/-- `SubmitQueue.registerSubmissionCost` (lines 143-154): registers the cost
only for delivery orders. -/
def registerSubmissionCost (order : SubmitOrder) (gasUsed : Nat) :
    Option DeliveryCostCall :=
  if order.isDelivery then
    some { messageIdentifier := order.messageIdentifier, deliveryGasCost := gasUsed }
  else none

/-- `SubmitQueue.onOrderCompletion` (lines 102-141), projected onto the
`Store.registerDeliveryCost` call it may emit: the cost is registered only on
`success` with a non-null `result`. -/
def onOrderCompletion (order : SubmitOrder) (success : Bool)
    (result : Option SubmitOrderResult) : Option DeliveryCostCall :=
  if success then
    match result with
    | some r => registerSubmissionCost order r.txReceipt.gasUsed
    | none => none
  else none

/-! ### Block-window scan loop
(`MockCollectorWorker.run`, lines 511-583, and the identically structured
`SendMessageSnifferWorker.run`, lines 147-190). -/

/-- One iteration of the scan loop up to the `getLogs` window it queries:
`none` models the sleep-and-retry branch (`!endBlock or startBlock > endBlock`,
where a tip of 0 is falsy), otherwise the window `[fromBlock, toBlock]` after
clamping the tip first to `stoppingBlock` and then to `fromBlock + maxBlocks`
(when `endBlock - startBlock > maxBlocks`).  `stopBlock = none` models the
`stoppingBlock ?? Infinity` default, `maxBlocks = none` a null `maxBlocks`. -/
def nextWindow (tip fromBlock : Nat) (stopBlock maxBlocks : Option Nat) :
    Option (Nat × Nat) :=
  if tip = 0 || fromBlock > tip then none
  else
    let toBlock1 :=
      match stopBlock with
      | some s => if tip > s then s else tip
      | none => tip
    let toBlock2 :=
      match maxBlocks with
      | some m => if toBlock1 - fromBlock > m then fromBlock + m else toBlock1
      | none => toBlock1
    some (fromBlock, toBlock2)

/-- The scan loop with a constant chain tip: the list of `getLogs` windows it
issues, starting at `fromBlock`.  The loop breaks after a window whose end
reaches `stoppingBlock` and otherwise advances to `toBlock + 1`; the sleep
branch leaves `fromBlock` unchanged.  `fuel` bounds the number of iterations
modelled (the real loop is infinite). -/
def runWindows (tip : Nat) (stopBlock maxBlocks : Option Nat) :
    Nat → Nat → List (Nat × Nat)
  | 0, _ => []
  | fuel + 1, fromBlock =>
    match nextWindow tip fromBlock stopBlock maxBlocks with
    | none => runWindows tip stopBlock maxBlocks fuel fromBlock
    | some (f, t) =>
      let brk : Bool :=
        match stopBlock with
        | some s => decide (t ≥ s)
        | none => false
      if brk then [(f, t)]
      else (f, t) :: runWindows tip stopBlock maxBlocks fuel (t + 1)

/-! ### Mock collector message signing
(`MockCollectorWorker.handleMockMessage`, lines 658-716, with the helpers
`encodeMessage` / `encodeSignature` of `mock.utils`).  Byte strings are lists
of values below 256. -/

/-- An ECDSA signature as the `(v, r, s)` components used by `encodeSignature`. -/
structure SignatureVRS where
  v : Nat
  r : Nat
  s : Nat
deriving DecidableEq, Repr

/-- One 32-byte big-endian abi word of an unsigned value. -/
def abiWord (n : Nat) : List Nat :=
  (List.range 32).map (fun i => n / 256 ^ (31 - i) % 256)

/-- `encodeMessage` of `mock.utils`: `solidityPacked(['bytes','bytes'], ...)`,
i.e. plain concatenation of the two byte strings. -/
def encodeMessage (address message : List Nat) : List Nat :=
  address ++ message

/-- `encodeSignature` of `mock.utils`:
`abi.encode(uint8 v, uint256 r, uint256 s)` — three 32-byte words. -/
def encodeSignature (sig : SignatureVRS) : List Nat :=
  abiWord sig.v ++ abiWord sig.r ++ abiWord sig.s

/-- `zeroPadValue(address, 32)`: left-pad a byte string with zeros to 32
bytes. -/
def zeroPadValue32 (address : List Nat) : List Nat :=
  List.replicate (32 - address.length) 0 ++ address

/-- The `AmbPayload` constructed by `handleMockMessage` (its fields). -/
structure MockAmbPayload where
  messageIdentifier : String
  amb : String
  destinationChainId : String
  message : List Nat
  messageCtx : Option (List Nat)
deriving DecidableEq, Repr

/-- The payload-building portion of `MockCollectorWorker.handleMockMessage`
(lines 691-704).  `keccak256` and the private-key signing function are the
cryptographic primitives, kept abstract and passed in; `messageIdentifier` and
`destinationChainId` come from `decodeMockMessage` on the event and are passed
through. -/
def handleMockMessage (keccak256 : List Nat → List Nat)
    (sign : List Nat → SignatureVRS) (incentivesAddress : List Nat)
    (messageIdentifier destinationChainId : String)
    (message : List Nat) : MockAmbPayload :=
  let incentivesAddressBytes32 := zeroPadValue32 incentivesAddress
  let encodedMessage := encodeMessage incentivesAddressBytes32 message
  let signature := sign (keccak256 encodedMessage)
  let executionContext := encodeSignature signature
  { messageIdentifier := messageIdentifier
    amb := "mock"
    destinationChainId := destinationChainId
    message := encodedMessage
    messageCtx := some executionContext }

/-! ### GARP message decoding (`decodeMessageWithContext`, lines 367-389) -/

/-- Lowercase hexadecimal digit. -/
def hexDigitChar (n : Nat) : Char :=
  if n < 10 then Char.ofNat (48 + n) else Char.ofNat (87 + n)

/-- Two lowercase hex digits of a byte. -/
def byteToHex (b : Nat) : List Char :=
  [hexDigitChar (b / 16 % 16), hexDigitChar (b % 16)]

/-- `ethers.hexlify`: `0x`-prefixed lowercase hex of a byte string. -/
def hexlify (bytes : List Nat) : String :=
  "0x" ++ String.mk (bytes.map byteToHex).flatten

/-- The `context` string computed from the first byte:
`(messageBytes[0] || '').toString(16)`.  A zero (or missing) first byte is
falsy, so the empty string replaces it and `toString(16)` leaves it empty;
a nonzero byte is rendered as unpadded lowercase hex. -/
def contextOf (b0 : Nat) : String :=
  if b0 = 0 then ""
  else if b0 < 16 then String.mk [hexDigitChar b0]
  else String.mk [hexDigitChar (b0 / 16), hexDigitChar (b0 % 16)]

/-- A UTF-8 continuation byte. -/
def utf8Cont (b : Nat) : Bool :=
  decide (0x80 ≤ b) && decide (b < 0xc0)

/-- Strict UTF-8 decoding, one code point per step; `fuel` is a structural
bound on the number of steps (each step consumes at least one byte, so the
byte count suffices). -/
def utf8DecodeAux : Nat → List Nat → Option (List Char)
  | _, [] => some []
  | 0, _ :: _ => none
  | fuel + 1, b :: bs =>
    if b < 0x80 then
      (utf8DecodeAux fuel bs).map (fun cs => Char.ofNat b :: cs)
    else if b < 0xc0 then none
    else if b < 0xe0 then
      match bs with
      | b1 :: bs2 =>
        if utf8Cont b1 then
          let cp := (b - 0xc0) * 0x40 + (b1 - 0x80)
          if cp ≤ 0x7f then none
          else (utf8DecodeAux fuel bs2).map (fun cs => Char.ofNat cp :: cs)
        else none
      | [] => none
    else if b < 0xf0 then
      match bs with
      | b1 :: b2 :: bs3 =>
        if utf8Cont b1 && utf8Cont b2 then
          let cp := (b - 0xe0) * 0x1000 + (b1 - 0x80) * 0x40 + (b2 - 0x80)
          if cp ≤ 0x7ff then none
          else if 0xd800 ≤ cp ∧ cp < 0xe000 then none
          else (utf8DecodeAux fuel bs3).map (fun cs => Char.ofNat cp :: cs)
        else none
      | _ => none
    else if b < 0xf8 then
      match bs with
      | b1 :: b2 :: b3 :: bs4 =>
        if utf8Cont b1 && utf8Cont b2 && utf8Cont b3 then
          let cp := (b - 0xf0) * 0x40000 + (b1 - 0x80) * 0x1000 +
            (b2 - 0x80) * 0x40 + (b3 - 0x80)
          if cp ≤ 0xffff then none
          else if cp > 0x10ffff then none
          else (utf8DecodeAux fuel bs4).map (fun cs => Char.ofNat cp :: cs)
        else none
      | _ => none
    else none

/-- Strict UTF-8 decoding of a byte string, as `ethers.toUtf8String` performs
it with the default (error-throwing) recovery: continuation bytes must follow
their lead byte, and overlong encodings, UTF-16 surrogates and code points
above 0x10ffff are rejected; `none` models the thrown error. -/
def utf8Decode (bytes : List Nat) : Option (List Char) :=
  utf8DecodeAux bytes.length bytes

/-- The record returned by `decodeMessageWithContext`. -/
structure GARPDecodedMessage where
  context : String
  messageIdentifier : String
  sender : String
  destination : String
  payload : String
deriving DecidableEq, Repr

/-- `decodeMessageWithContext` (layerZero-message-sniffer-worker.ts lines
367-389) on the byte array of the encoded message.  `ethers.getAddress` of the
hexlified 20-byte slice (EIP-55 checksumming, keccak-based) is kept abstract
and passed in as a function of the slice; the error thrown by
`ethers.toUtf8String` on a payload that is not valid UTF-8 is modelled as
`none`. -/
def decodeMessageWithContext (getAddress : List Nat → String)
    (messageBytes : List Nat) : Option GARPDecodedMessage :=
  match utf8Decode (messageBytes.drop 73) with
  | none => none
  | some payloadChars =>
    some { context := contextOf (messageBytes.headD 0)
           messageIdentifier := hexlify ((messageBytes.drop 1).take 32)
           sender := getAddress ((messageBytes.drop 33).take 20)
           destination := getAddress ((messageBytes.drop 53).take 20)
           payload := String.mk payloadChars }

/-! ## Helper lemmas -/

theorem jsonMergeField_isSome {α : Type} {stored fresh : Option α}
    (h : stored.isSome) : (jsonMergeField stored fresh).isSome := by
  cases stored with
  | none => simp at h
  | some v => simp [jsonMergeField]

theorem applyLifecycleOp_none (op : LifecycleOp) :
    ∃ b, applyLifecycleOp none op = some b ∧ b.status = some (opStatus op) := by
  cases op with
  | placed c e =>
      exact ⟨freshBounty c e, rfl, rfl⟩
  | delivered c e =>
      exact ⟨_, rfl, rfl⟩
  | claimed c e =>
      exact ⟨_, rfl, rfl⟩

theorem applyLifecycleOp_some {b : BountyJson} {v : Nat} (hb : b.status = some v)
    (op : LifecycleOp) :
    ∃ b', applyLifecycleOp (some b) op = some b' ∧
      b'.status = some (max v (opStatus op)) := by
  cases op with
  | placed c e =>
      refine ⟨mergeExistingWins (freshBounty c e) b, rfl, ?_⟩
      simp [mergeExistingWins, jsonMergeField, hb, opStatus, BountyStatus.BountyPlaced]
  | delivered c e =>
      refine ⟨_, rfl, ?_⟩
      simp [registerMessageDelivered, jsMaxStatus, hb, opStatus,
        BountyStatus.MessageDelivered]
  | claimed c e =>
      refine ⟨_, rfl, ?_⟩
      simp [registerBountyClaimed, jsMaxStatusRev, hb, opStatus,
        BountyStatus.BountyClaimed, Nat.max_comm]

theorem runLifecycle_some (ops : List LifecycleOp) :
    ∀ (b : BountyJson) (v : Nat), b.status = some v →
      ∃ b', runLifecycle ops (some b) = some b' ∧
        b'.status = some (ops.foldl (fun a op => max a (opStatus op)) v) := by
  induction ops with
  | nil => exact fun b v hb => ⟨b, rfl, hb⟩
  | cons op rest ih =>
      intro b v hb
      obtain ⟨b1, h1, hs1⟩ := applyLifecycleOp_some hb op
      obtain ⟨b', h', hs'⟩ := ih b1 (max v (opStatus op)) hs1
      refine ⟨b', ?_, hs'⟩
      simpa [runLifecycle, h1] using h'

/-! ## Claim theorems -/

/-- C1: for every messageIdentifier, across any interleaving of
`registerBountyPlaced`, `registerMessageDelivered` and `registerBountyClaimed`
applied to the store, the status of the final stored bounty record equals the
maximum (BountyPlaced < MessageDelivered < BountyClaimed) of all statuses ever
written for that identifier, regardless of arrival order; and the status never
decreases across any single further write. -/
theorem lifecycle_status_is_max :
    (∀ ops : List LifecycleOp, ops ≠ [] →
       getStatus (runLifecycle ops none) = some (maxOpStatus ops)) ∧
    (∀ (s : Option BountyJson) (op : LifecycleOp),
       statusLe (getStatus s) (getStatus (applyLifecycleOp s op))) := by
  constructor
  · intro ops hne
    cases ops with
    | nil => exact absurd rfl hne
    | cons op rest =>
        obtain ⟨b0, h0, hs0⟩ := applyLifecycleOp_none op
        obtain ⟨b', h', hs'⟩ := runLifecycle_some rest b0 (opStatus op) hs0
        have hr : runLifecycle (op :: rest) none = some b' := by
          simpa [runLifecycle, h0] using h'
        have hg : getStatus (runLifecycle (op :: rest) none) = some
            (rest.foldl (fun a x => max a (opStatus x)) (opStatus op)) := by
          rw [hr]; exact hs'
        rw [hg]
        simp [maxOpStatus, List.foldl_map, Nat.zero_max]
  · intro s op
    cases s with
    | none => exact trivial
    | some b =>
        cases hb : b.status with
        | none =>
            have g1 : getStatus (some b) = none := hb
            rw [g1]; exact trivial
        | some v =>
            obtain ⟨b', h', hs'⟩ := applyLifecycleOp_some hb op
            have g1 : getStatus (some b) = some v := hb
            have g2 : getStatus (applyLifecycleOp (some b) op) =
                some (max v (opStatus op)) := by rw [h']; exact hs'
            rw [g1, g2]
            exact Nat.le_max_left _ _

/-- Witness for C1: an out-of-order interleaving — `MessageDelivered` on chain
2 first, then `BountyPlaced` on chain 1 — ends with status
`MessageDelivered` (= 1), the maximum of all statuses written. -/
theorem lifecycle_status_is_max_witness :
    (let ops := [LifecycleOp.delivered "2"
        { messageIdentifier := "0xAA", incentivesAddress := "0xI",
          transactionHash := "0xT1" },
      LifecycleOp.placed "1"
        { messageIdentifier := "0xAA", maxGasDelivery := 200000,
          maxGasAck := 200000, refundGasTo := "0xR", priceOfDeliveryGas := 10,
          priceOfAckGas := 11, targetDelta := 12, incentivesAddress := "0xI",
          transactionHash := "0xT2" }]
     ops ≠ [] ∧ getStatus (runLifecycle ops none) = some (maxOpStatus ops)) :=
  ⟨by simp, lifecycle_status_is_max.1 _ (by simp)⟩

theorem applyIncrease_some {b : BountyJson} {d0 a0 : Nat}
    (hd : b.priceOfDeliveryGas = some d0) (ha : b.priceOfAckGas = some a0)
    (e : BountyIncreasedEvent) :
    ∃ b', applyIncrease (some b) e = some b' ∧
      b'.priceOfDeliveryGas = some (max d0 e.newDeliveryGasPrice) ∧
      b'.priceOfAckGas = some (max a0 e.newAckGasPrice) := by
  by_cases h1 : d0 < e.newDeliveryGasPrice <;> by_cases h2 : a0 < e.newAckGasPrice
  · refine ⟨{ b with priceOfDeliveryGas := some e.newDeliveryGasPrice, priceOfAckGas := some e.newAckGasPrice }, ?_, ?_, ?_⟩
    · simp [applyIncrease, registerBountyIncreased, hd, ha, h1, h2]
    · simp [Nat.max_eq_right h1.le]
    · simp [Nat.max_eq_right h2.le]
  · refine ⟨{ b with priceOfDeliveryGas := some e.newDeliveryGasPrice, priceOfAckGas := some a0 }, ?_, ?_, ?_⟩
    · simp [applyIncrease, registerBountyIncreased, hd, ha, h1, h2]
    · simp [Nat.max_eq_right h1.le]
    · simp [Nat.max_eq_left (Nat.not_lt.mp h2)]
  · refine ⟨{ b with priceOfDeliveryGas := some d0, priceOfAckGas := some e.newAckGasPrice }, ?_, ?_, ?_⟩
    · simp [applyIncrease, registerBountyIncreased, hd, ha, h1, h2]
    · simp [Nat.max_eq_left (Nat.not_lt.mp h1)]
    · simp [Nat.max_eq_right h2.le]
  · refine ⟨b, ?_, ?_, ?_⟩
    · simp [applyIncrease, registerBountyIncreased, hd, ha, h1, h2]
    · rw [hd]; simp [Nat.max_eq_left (Nat.not_lt.mp h1)]
    · rw [ha]; simp [Nat.max_eq_left (Nat.not_lt.mp h2)]

theorem runIncreases (es : List BountyIncreasedEvent) :
    ∀ (b : BountyJson) (d0 a0 : Nat),
      b.priceOfDeliveryGas = some d0 → b.priceOfAckGas = some a0 →
      ∃ b', es.foldl applyIncrease (some b) = some b' ∧
        b'.priceOfDeliveryGas =
          some (maxPrice d0 BountyIncreasedEvent.newDeliveryGasPrice es) ∧
        b'.priceOfAckGas =
          some (maxPrice a0 BountyIncreasedEvent.newAckGasPrice es) := by
  induction es with
  | nil => exact fun b d0 a0 hd ha => ⟨b, rfl, hd, ha⟩
  | cons e es ih =>
      intro b d0 a0 hd ha
      obtain ⟨b1, h1, hd1, ha1⟩ := applyIncrease_some hd ha e
      obtain ⟨b', h', hd', ha'⟩ :=
        ih b1 (max d0 e.newDeliveryGasPrice) (max a0 e.newAckGasPrice) hd1 ha1
      refine ⟨b', ?_, hd', ha'⟩
      simpa [h1] using h'

/-- C2: for any sequence of `registerBountyIncreased` calls on one identifier
starting from an existing record, the stored `priceOfDeliveryGas` afterwards is
the maximum of the initial value and all observed `newDeliveryGasPrice`
arguments, likewise `priceOfAckGas` for `newAckGasPrice`; and the method writes
the record exactly when at least one of the two prices strictly increases. -/
theorem bountyIncreased_prices_max :
    (∀ (b : BountyJson) (d0 a0 : Nat) (es : List BountyIncreasedEvent),
       b.priceOfDeliveryGas = some d0 → b.priceOfAckGas = some a0 →
       ∃ b', es.foldl applyIncrease (some b) = some b' ∧
         b'.priceOfDeliveryGas =
           some (maxPrice d0 BountyIncreasedEvent.newDeliveryGasPrice es) ∧
         b'.priceOfAckGas =
           some (maxPrice a0 BountyIncreasedEvent.newAckGasPrice es)) ∧
    (∀ (e : BountyIncreasedEvent) (b : BountyJson),
       (registerBountyIncreased e (some b)).2 =
         (decide (b.priceOfDeliveryGas.getD 0 < e.newDeliveryGasPrice) ||
          decide (b.priceOfAckGas.getD 0 < e.newAckGasPrice))) := by
  constructor
  · exact fun b d0 a0 es hd ha => runIncreases es b d0 a0 hd ha
  · intro e b
    by_cases h1 : b.priceOfDeliveryGas.getD 0 < e.newDeliveryGasPrice <;>
      by_cases h2 : b.priceOfAckGas.getD 0 < e.newAckGasPrice <;>
        simp [registerBountyIncreased, h1, h2]

/-- Witness for C2: the spec's example — delivery prices 10, 20, 15, 25 on a
record starting at 0 end with stored `priceOfDeliveryGas = 25`. -/
theorem bountyIncreased_prices_max_witness :
    (let b : BountyJson := { emptyRecord "0xAA" with
        priceOfDeliveryGas := some 0, priceOfAckGas := some 0 }
     let es : List BountyIncreasedEvent :=
       [{ messageIdentifier := "0xAA", newDeliveryGasPrice := 10,
          newAckGasPrice := 0, incentivesAddress := "0xI", transactionHash := "t1" },
        { messageIdentifier := "0xAA", newDeliveryGasPrice := 20,
          newAckGasPrice := 0, incentivesAddress := "0xI", transactionHash := "t2" },
        { messageIdentifier := "0xAA", newDeliveryGasPrice := 15,
          newAckGasPrice := 0, incentivesAddress := "0xI", transactionHash := "t3" },
        { messageIdentifier := "0xAA", newDeliveryGasPrice := 25,
          newAckGasPrice := 0, incentivesAddress := "0xI", transactionHash := "t4" }]
     b.priceOfDeliveryGas = some 0 ∧ b.priceOfAckGas = some 0 ∧
       (∃ b', es.foldl applyIncrease (some b) = some b' ∧
         b'.priceOfDeliveryGas =
           some (maxPrice 0 BountyIncreasedEvent.newDeliveryGasPrice es) ∧
         b'.priceOfAckGas =
           some (maxPrice 0 BountyIncreasedEvent.newAckGasPrice es)) ∧
       maxPrice 0 BountyIncreasedEvent.newDeliveryGasPrice es = 25) :=
  ⟨rfl, rfl, bountyIncreased_prices_max.1 _ 0 0 _ rfl rfl, by decide⟩

theorem preservesPopulated_refl (b : BountyJson) : preservesPopulated b b := by
  unfold preservesPopulated
  exact ⟨id, id, id, id, id, id, id, id, id, id, id, id, id, id, id⟩

/-- C3: `registerBountyPlaced` creates the record when none exists, merges with
the stored record winning field-for-field when one does, and no bounty store
operation (`registerBountyPlaced`, `registerMessageDelivered`,
`registerBountyClaimed`, `registerBountyIncreased`) ever clears a field that
is already populated in the stored record. -/
theorem bountyPlaced_merge_preserves :
    (∀ (c : String) (e : BountyPlacedEvent),
       registerBountyPlaced c e none = some (freshBounty c e)) ∧
    (∀ (c : String) (e : BountyPlacedEvent) (b : BountyJson),
       registerBountyPlaced c e (some b) =
         some (mergeExistingWins (freshBounty c e) b)) ∧
    (∀ (b : BountyJson) (op : StoreOp),
       ∃ b', applyStoreOp (some b) op = some b' ∧ preservesPopulated b b') := by
  refine ⟨fun c e => rfl, fun c e b => rfl, ?_⟩
  intro b op
  cases op with
  | placed c e =>
      refine ⟨mergeExistingWins (freshBounty c e) b, rfl, ?_⟩
      unfold preservesPopulated
      exact ⟨fun h => jsonMergeField_isSome h, fun h => jsonMergeField_isSome h,
        fun h => jsonMergeField_isSome h, fun h => jsonMergeField_isSome h,
        fun h => jsonMergeField_isSome h, fun h => jsonMergeField_isSome h,
        fun h => jsonMergeField_isSome h, fun h => jsonMergeField_isSome h,
        fun h => jsonMergeField_isSome h, fun h => jsonMergeField_isSome h,
        fun h => jsonMergeField_isSome h, fun h => jsonMergeField_isSome h,
        fun h => jsonMergeField_isSome h, fun h => jsonMergeField_isSome h,
        fun h => jsonMergeField_isSome h⟩
  | delivered c e =>
      refine ⟨_, rfl, ?_⟩
      unfold preservesPopulated
      refine ⟨id, fun _ => rfl, id, id, id, id, id, id, ?_, id, id, id,
        fun _ => rfl, id, id⟩
      intro h
      simpa [jsMaxStatus] using h
  | claimed c e =>
      refine ⟨_, rfl, ?_⟩
      unfold preservesPopulated
      refine ⟨fun _ => rfl, id, id, id, id, id, id, id, ?_, id, id, id, id,
        fun _ => rfl, id⟩
      intro h
      simpa [jsMaxStatusRev] using h
  | increased e =>
      by_cases h1 : b.priceOfDeliveryGas.getD 0 < e.newDeliveryGasPrice <;>
        by_cases h2 : b.priceOfAckGas.getD 0 < e.newAckGasPrice
      · refine ⟨{ b with priceOfDeliveryGas := some e.newDeliveryGasPrice, priceOfAckGas := some e.newAckGasPrice },
          by simp [applyStoreOp, registerBountyIncreased, h1, h2], ?_⟩
        unfold preservesPopulated
        exact ⟨id, id, id, id, id, fun _ => rfl, fun _ => rfl, id, id, id, id,
          id, id, id, id⟩
      · refine ⟨{ b with priceOfDeliveryGas := some e.newDeliveryGasPrice, priceOfAckGas := some (b.priceOfAckGas.getD 0) },
          by simp [applyStoreOp, registerBountyIncreased, h1, h2], ?_⟩
        unfold preservesPopulated
        exact ⟨id, id, id, id, id, fun _ => rfl, fun _ => rfl, id, id, id, id,
          id, id, id, id⟩
      · refine ⟨{ b with priceOfDeliveryGas := some (b.priceOfDeliveryGas.getD 0), priceOfAckGas := some e.newAckGasPrice },
          by simp [applyStoreOp, registerBountyIncreased, h1, h2], ?_⟩
        unfold preservesPopulated
        exact ⟨id, id, id, id, id, fun _ => rfl, fun _ => rfl, id, id, id, id,
          id, id, id, id⟩
      · exact ⟨b, by simp [applyStoreOp, registerBountyIncreased, h1, h2],
          preservesPopulated_refl b⟩

/-- Witness for C3: a sparse record created by `registerMessageDelivered`
keeps all its populated fields across a later `registerBountyPlaced`. -/
theorem bountyPlaced_merge_preserves_witness :
    (let b : BountyJson := { emptyRecord "0xAA" with
        status := some BountyStatus.MessageDelivered,
        execTransactionHash := some "0xT1", toChainId := some "2" }
     let op := StoreOp.placed "1"
       { messageIdentifier := "0xAA", maxGasDelivery := 200000,
         maxGasAck := 200000, refundGasTo := "0xR", priceOfDeliveryGas := 10,
         priceOfAckGas := 11, targetDelta := 12, incentivesAddress := "0xI",
         transactionHash := "0xT2" }
     ∃ b', applyStoreOp (some b) op = some b' ∧ preservesPopulated b b') :=
  bountyPlaced_merge_preserves.2.2 _ _

/-- C4: the submit queue runs the static-call simulation exactly when
`retryCount > 0` or the order's `requeueCount` (defaulting to 0) is positive,
and a failed order is dropped without retry exactly when the error's code is
`CALL_EXCEPTION` (every other error is retried). -/
theorem submitQueue_simulation_and_drop :
    (∀ (order : SubmitOrder) (retryCount : Nat),
       handleOrderSimulates order retryCount = true ↔
         0 < retryCount ∨ 0 < order.requeueCount.getD 0) ∧
    (∀ errorCode : Option String,
       (handleFailedOrder errorCode = false ↔ errorCode = some "CALL_EXCEPTION") ∧
       (handleFailedOrder errorCode = true ↔ errorCode ≠ some "CALL_EXCEPTION")) := by
  constructor
  · intro order retryCount
    simp [handleOrderSimulates]
  · intro errorCode
    by_cases h : errorCode = some "CALL_EXCEPTION" <;> simp [handleFailedOrder, h]

/-- Witness for C4: on first submission with no requeue there is no
simulation; a requeued order simulates; a `CALL_EXCEPTION` error is not
retried while a generic error is. -/
theorem submitQueue_simulation_and_drop_witness :
    ((handleOrderSimulates { messageIdentifier := "0xAA", isDelivery := true, priority := false, requeueCount := none } 0 = true ↔
      0 < 0 ∨ 0 < (none : Option Nat).getD 0) ∧
     (handleFailedOrder (some "CALL_EXCEPTION") = false ↔
       (some "CALL_EXCEPTION" : Option String) = some "CALL_EXCEPTION")) :=
  ⟨submitQueue_simulation_and_drop.1 _ 0,
   (submitQueue_simulation_and_drop.2 (some "CALL_EXCEPTION")).1⟩

/-- C8: on completion of a submit order the submitter registers the delivery
cost (with the receipt's `gasUsed`) exactly when the order completed with
`success` and a non-null result and is a delivery order; ack orders and
unsuccessful or null-result completions never register a cost. -/
theorem delivery_cost_registration :
    (∀ (order : SubmitOrder) (success : Bool) (result : Option SubmitOrderResult),
       (onOrderCompletion order success result).isSome ↔
         success = true ∧ result.isSome ∧ order.isDelivery = true) ∧
    (∀ (order : SubmitOrder) (r : SubmitOrderResult),
       order.isDelivery = true →
       onOrderCompletion order true (some r) =
         some { messageIdentifier := order.messageIdentifier, deliveryGasCost := r.txReceipt.gasUsed }) ∧
    (∀ (order : SubmitOrder) (success : Bool) (result : Option SubmitOrderResult),
       order.isDelivery = false → onOrderCompletion order success result = none) := by
  refine ⟨?_, ?_, ?_⟩
  · intro order success result
    cases success <;> cases result <;>
      cases hd : order.isDelivery <;>
        simp [onOrderCompletion, registerSubmissionCost, hd]
  · intro order r hd
    simp [onOrderCompletion, registerSubmissionCost, hd]
  · intro order success result hd
    cases success <;> cases result <;>
      simp [onOrderCompletion, registerSubmissionCost, hd]

/-- Witness for C8: a successful delivery order with a receipt of
`gasUsed = 150000` registers exactly that cost. -/
theorem delivery_cost_registration_witness :
    (let order : SubmitOrder := { messageIdentifier := "0xAA", isDelivery := true, priority := false, requeueCount := none }
     let r : SubmitOrderResult := { order := order, txReceipt := { gasUsed := 150000 } }
     order.isDelivery = true ∧
       onOrderCompletion order true (some r) =
         some { messageIdentifier := order.messageIdentifier, deliveryGasCost := r.txReceipt.gasUsed }) :=
  ⟨rfl, delivery_cost_registration.2.1 _ _ rfl⟩

/-- C9: `getBounty` returns null exactly when the stored record lacks any of
`priceOfDeliveryGas`, `priceOfAckGas` or `targetDelta` — in particular for the
sparse record created by `registerMessageDelivered` when no bounty was seen —
and returns the stored bounty when all three are present. -/
theorem getBounty_requires_prices :
    (∀ b : BountyJson,
       getBounty (some b) = none ↔
         (b.priceOfDeliveryGas = none ∨ b.priceOfAckGas = none ∨
          b.targetDelta = none)) ∧
    (∀ b : BountyJson,
       b.priceOfDeliveryGas.isSome → b.priceOfAckGas.isSome →
       b.targetDelta.isSome → getBounty (some b) = some b) ∧
    (∀ (chainId : String) (e : MessageDeliveredEvent),
       getBounty (registerMessageDelivered chainId e none) = none) := by
  refine ⟨?_, ?_, ?_⟩
  · intro b
    cases hd : b.priceOfDeliveryGas <;> cases ha : b.priceOfAckGas <;>
      cases ht : b.targetDelta <;> simp [getBounty, hd, ha, ht]
  · intro b h1 h2 h3
    simp [getBounty, h1, h2, h3]
  · intro chainId e
    simp [registerMessageDelivered, getBounty, emptyRecord]

/-- Witness for C9: the sparse record written by `registerMessageDelivered`
on an empty store decodes to null, and a full record decodes to itself. -/
theorem getBounty_requires_prices_witness :
    (let b : BountyJson := { emptyRecord "0xAA" with
        priceOfDeliveryGas := some 10, priceOfAckGas := some 11,
        targetDelta := some 12 }
     b.priceOfDeliveryGas.isSome = true ∧ b.priceOfAckGas.isSome = true ∧
       b.targetDelta.isSome = true ∧ getBounty (some b) = some b) :=
  ⟨rfl, rfl, rfl, getBounty_requires_prices.2.1 _ rfl rfl rfl⟩

/-- C10: `registerBountyIncreased` on an identifier with no existing record
stores a baseline holding exactly `messageIdentifier`, `priceOfDeliveryGas`
and `priceOfAckGas` — in particular no `status` key — and a later
`registerBountyPlaced` is what first gives that record a valid status. -/
theorem bountyIncreased_baseline_shape :
    ∀ e : BountyIncreasedEvent,
      registerBountyIncreased e none =
        (some { messageIdentifier := e.messageIdentifier, fromChainId := none, toChainId := none, maxGasDelivery := none, maxGasAck := none, refundGasTo := none, priceOfDeliveryGas := some e.newDeliveryGasPrice, priceOfAckGas := some e.newAckGasPrice, targetDelta := none, status := none, address := none, finalised := none, submitTransactionHash := none, execTransactionHash := none, ackTransactionHash := none, deliveryGasCost := none }, true) ∧
      getStatus (registerBountyIncreased e none).1 = none ∧
      (∀ (c : String) (pe : BountyPlacedEvent),
         ∃ b', registerBountyPlaced c pe (registerBountyIncreased e none).1 = some b' ∧
           b'.status = some BountyStatus.BountyPlaced) := by
  intro e
  refine ⟨rfl, rfl, ?_⟩
  intro c pe
  exact ⟨_, rfl, rfl⟩

/-- C6: the Mock collector's published payload carries as `messageCtx` the
abi-encoding `(uint8 v, uint256 r, uint256 s)` of the ECDSA signature, under
the configured key, of `keccak256` of the 32-byte-padded incentives address
concatenated with the event's message bytes; and its `message` field is that
same concatenation. -/
theorem mock_payload_encoding :
    ∀ (keccak256 : List Nat → List Nat) (sign : List Nat → SignatureVRS)
      (incentivesAddress : List Nat) (mid dc : String) (message : List Nat),
      (handleMockMessage keccak256 sign incentivesAddress mid dc message).messageCtx =
        some (encodeSignature
          (sign (keccak256 (zeroPadValue32 incentivesAddress ++ message)))) ∧
      (handleMockMessage keccak256 sign incentivesAddress mid dc message).message =
        zeroPadValue32 incentivesAddress ++ message :=
  fun _ _ _ _ _ _ => ⟨rfl, rfl⟩

theorem runWindows_sleep (tip : Nat) (stopBlock maxBlocks : Option Nat) :
    ∀ (fuel fromBlock : Nat), tip = 0 ∨ tip < fromBlock →
      runWindows tip stopBlock maxBlocks fuel fromBlock = [] := by
  intro fuel
  induction fuel with
  | zero => intro fromBlock _; rfl
  | succ n ih =>
      intro fromBlock h
      have hn : nextWindow tip fromBlock stopBlock maxBlocks = none := by
        rcases h with h | h <;> simp [nextWindow, h]
      simp [runWindows, hn, ih fromBlock h]

theorem runWindows_step (tip : Nat) (maxBlocks : Option Nat) (fuel fromBlock f t : Nat)
    (h : nextWindow tip fromBlock none maxBlocks = some (f, t)) :
    runWindows tip none maxBlocks (fuel + 1) fromBlock =
      (f, t) :: runWindows tip none maxBlocks fuel (t + 1) := by
  simp [runWindows, h]

theorem nextWindow_formula (tip fromB s m : Nat) (h0 : tip ≠ 0) (h : fromB ≤ tip) :
    nextWindow tip fromB (some s) (some m) =
      some (fromB, min tip (min s (fromB + m))) := by
  have hg : (decide (tip = 0) || decide (fromB > tip)) = false := by
    simp [h0, Nat.not_lt.mpr h]
  simp only [nextWindow, hg, Bool.false_eq_true, if_false]
  split_ifs with h1 h2 h2 <;> simp <;> omega

/-- C5 (amended): when the tip is nonzero and at least `fromBlock`, a scan
iteration queries the window `[fromBlock, toBlock]` with
`toBlock = min(currentTip, stoppingBlock, fromBlock + maxBlocks)`; when the
tip is unset (0) or below `fromBlock` the iteration sleeps and retries; and a
scanner started at block 100 against a constant tip of 500 with
`maxBlocks = 50` makes exactly 8 `getLogs` calls, with windows
[100,150], [151,201], [202,252], [253,303], [304,354], [355,405], [406,456],
[457,500]. -/
theorem scan_window_loop :
    (∀ (tip fromB s m : Nat), tip ≠ 0 → fromB ≤ tip →
       nextWindow tip fromB (some s) (some m) =
         some (fromB, min tip (min s (fromB + m)))) ∧
    (∀ (tip fromB : Nat) (stop maxB : Option Nat), tip = 0 ∨ tip < fromB →
       nextWindow tip fromB stop maxB = none) ∧
    (∀ fuel : Nat, 8 ≤ fuel →
       runWindows 500 none (some 50) fuel 100 =
         [(100,150),(151,201),(202,252),(253,303),(304,354),(355,405),(406,456),(457,500)]) := by
  refine ⟨nextWindow_formula, ?_, ?_⟩
  · intro tip fromB stop maxB h
    rcases h with h | h <;> simp [nextWindow, h]
  · intro fuel hf
    obtain ⟨k, rfl⟩ : ∃ k, fuel = k + 8 := ⟨fuel - 8, by omega⟩
    have s0 : runWindows 500 none (some 50) k 501 = [] :=
      runWindows_sleep 500 none (some 50) k 501 (Or.inr (by omega))
    have s1 : runWindows 500 none (some 50) (k+1) 457 = [(457,500)] :=
      (runWindows_step 500 (some 50) k 457 457 500 (by decide)).trans
        (congrArg (List.cons (457,500)) s0)
    have s2 : runWindows 500 none (some 50) (k+2) 406 = [(406,456),(457,500)] :=
      (runWindows_step 500 (some 50) (k+1) 406 406 456 (by decide)).trans
        (congrArg (List.cons (406,456)) s1)
    have s3 : runWindows 500 none (some 50) (k+3) 355 = [(355,405),(406,456),(457,500)] :=
      (runWindows_step 500 (some 50) (k+2) 355 355 405 (by decide)).trans
        (congrArg (List.cons (355,405)) s2)
    have s4 : runWindows 500 none (some 50) (k+4) 304 = [(304,354),(355,405),(406,456),(457,500)] :=
      (runWindows_step 500 (some 50) (k+3) 304 304 354 (by decide)).trans
        (congrArg (List.cons (304,354)) s3)
    have s5 : runWindows 500 none (some 50) (k+5) 253 = [(253,303),(304,354),(355,405),(406,456),(457,500)] :=
      (runWindows_step 500 (some 50) (k+4) 253 253 303 (by decide)).trans
        (congrArg (List.cons (253,303)) s4)
    have s6 : runWindows 500 none (some 50) (k+6) 202 = [(202,252),(253,303),(304,354),(355,405),(406,456),(457,500)] :=
      (runWindows_step 500 (some 50) (k+5) 202 202 252 (by decide)).trans
        (congrArg (List.cons (202,252)) s5)
    have s7 : runWindows 500 none (some 50) (k+7) 151 = [(151,201),(202,252),(253,303),(304,354),(355,405),(406,456),(457,500)] :=
      (runWindows_step 500 (some 50) (k+6) 151 151 201 (by decide)).trans
        (congrArg (List.cons (151,201)) s6)
    exact (runWindows_step 500 (some 50) (k+7) 100 100 150 (by decide)).trans
      (congrArg (List.cons (100,150)) s7)

/-- Counterexample for C5 as stated: the run started at block 100 against tip
500 with `maxBlocks = 50` never issues a `getLogs` window [451,500] — the
windows advance by 51 blocks, so the final window is [457,500]; moreover with
`stoppingBlock = 50` below `fromBlock = 100` the loop does not sleep although
`toBlock < fromBlock`: it issues one inverted-window query [100,50] and
exits. -/
theorem scan_window_loop_counterexample :
    (451, 500) ∉ runWindows 500 none (some 50) 20 100 ∧
    runWindows 500 none (some 50) 20 100 ≠
      [(100,150),(151,201),(202,252),(253,303),(304,354),(355,405),(406,456),(451,500)] ∧
    runWindows 500 (some 50) (some 50) 5 100 = [(100, 50)] := by
  decide

/-- Witness for C5 (amended): a concrete iteration computes the clamped window,
and the 8-call run is realised at `fuel = 8`. -/
theorem scan_window_loop_witness :
    ((500 : Nat) ≠ 0 ∧ (100 : Nat) ≤ 500 ∧
      nextWindow 500 100 (some 1000) (some 50) = some (100, min 500 (min 1000 (100 + 50)))) ∧
    (8 ≤ 8 ∧ runWindows 500 none (some 50) 8 100 =
      [(100,150),(151,201),(202,252),(253,303),(304,354),(355,405),(406,456),(457,500)]) :=
  ⟨⟨by decide, by decide, scan_window_loop.1 500 100 1000 50 (by decide) (by decide)⟩,
   ⟨by decide, scan_window_loop.2.2 8 (by decide)⟩⟩

/-- C7 (amended): for every byte string of length at least 73 whose bytes from
position 73 on are valid UTF-8, the GARP decoder returns context = the
unpadded lowercase-hex rendering of byte 0 (the empty string when that byte is
0), messageIdentifier = the 0x-hex string of bytes [1..33), sender and
destination = the checksummed addresses formed (via `ethers.getAddress`) from
bytes [33..53) and [53..73), and payload = the UTF-8 decoding of the bytes
[73..end); on a payload that is not valid UTF-8 the decoder throws instead of
returning. -/
theorem garp_decode_fields :
    ∀ (getAddress : List Nat → String) (bytes : List Nat) (cs : List Char),
      73 ≤ bytes.length →
      utf8Decode (bytes.drop 73) = some cs →
      decodeMessageWithContext getAddress bytes =
        some { context := contextOf (bytes.headD 0), messageIdentifier := hexlify ((bytes.drop 1).take 32), sender := getAddress ((bytes.drop 33).take 20), destination := getAddress ((bytes.drop 53).take 20), payload := String.mk cs } := by
  intro getAddress bytes cs _ hu
  unfold decodeMessageWithContext
  rw [hu]

/-- Counterexample for C7 as stated: a 74-byte input whose final byte is 255
makes the decoder throw (the payload is passed through `ethers.toUtf8String`,
not returned unchanged), and on an input of zero bytes the returned context is
the empty string, not a rendering of byte 0. -/
theorem garp_decode_counterexample :
    decodeMessageWithContext (fun _ => "") (List.replicate 73 0 ++ [255]) = none ∧
    (decodeMessageWithContext (fun _ => "") (List.replicate 73 0)).map
        GARPDecodedMessage.context = some "" ∧
    (decodeMessageWithContext (fun _ => "") (1 :: List.replicate 72 0)).map
        GARPDecodedMessage.context = some "1" := by
  refine ⟨rfl, rfl, rfl⟩

/-- Witness for C7 (amended): a 75-byte message decodes to its five components,
with the ASCII payload decoded from bytes 73 onwards. -/
theorem garp_decode_fields_witness :
    (let bytes := List.replicate 73 7 ++ [104, 105]
     73 ≤ bytes.length ∧
       utf8Decode (bytes.drop 73) = some ['h', 'i'] ∧
       decodeMessageWithContext hexlify bytes =
         some { context := contextOf (bytes.headD 0), messageIdentifier := hexlify ((bytes.drop 1).take 32), sender := hexlify ((bytes.drop 33).take 20), destination := hexlify ((bytes.drop 53).take 20), payload := String.mk ['h', 'i'] }) :=
  ⟨by decide, by decide, garp_decode_fields hexlify _ _ (by decide) (by decide)⟩

end Relayer
